import Mathlib

/-!
Verification of the redisgraph result-set decoding engine.

This file gives a shallow embedding of the decoding, projection and
cache-retry logic of the `redisgraph` crate (`src/result_set.rs`,
`src/assignments.rs`, `src/graph.rs`) and proves properties of it.

Modelling conventions:
* `redis::Value` becomes the `Value` inductive (Nil / Int / Data / Bulk);
  byte strings are `List Nat`.
* Rust `Result<T, RedisGraphError>` becomes `DRes` with a third variant
  `panicked` that records Rust runtime panics (out-of-bounds indexing),
  so that "returns an error" and "panics" are distinguishable.
* `i64 as usize` casts are modelled by `intToUsize` (twos complement
  wrap modulo 2^64); `usize` subtraction wraps via `usizeSub`
  (release-profile semantics).
* `f64` values are not modelled: a decoded double carries the accepted
  literal bytes, and `isF64Literal` decides the Rust `f64::from_str`
  grammar; `validUtf8` decides UTF-8 well-formedness of a byte list.
* `HashMap<RedisString, Scalar>` is modelled as an association list in
  insertion order; no claim in this development depends on hash-map
  key-set equality.
* `Value::take` (`mem::replace` with `Nil`) is an ownership artifact of
  the Rust code: every taken slot is read exactly once, so the pure
  model simply reads the slot.
-/

namespace RedisGraph

/-- The generic Redis protocol value tree delivered by the transport. -/
inductive Value : Type where
  | nil : Value
  | int (i : Int) : Value
  | data (bytes : List Nat) : Value
  | bulk (values : List Value) : Value

/-- A Redis byte string (`RedisString(pub Vec<u8>)`). -/
abbrev RedisString := List Nat

/-- Modelled from the spec: the error taxonomy of §7 (the enum itself lives in
`lib.rs`, which is not part of the provided sources; the three decoder files
construct exactly these variants). -/
inductive RedisGraphError : Type where
  | serverTypeError (msg : String)
  | clientTypeError (msg : String)
  | labelNotFound
  | relationshipTypeNotFound
  | propertyKeyNotFound
  | invalidUtf8
deriving DecidableEq

/-- Outcome of a decoding step: `ok`/`fail` mirror `RedisGraphResult`,
`panicked` records a Rust runtime panic (e.g. slice indexing out of bounds). -/
inductive DRes (α : Type) : Type where
  | ok (a : α)
  | fail (e : RedisGraphError)
  | panicked (msg : String)

def DRes.bind {α β : Type} : DRes α → (α → DRes β) → DRes β
  | .ok a, f => f a
  | .fail e, _ => .fail e
  | .panicked m, _ => .panicked m

instance : Monad DRes where
  pure := DRes.ok
  bind := DRes.bind

/-- The result is a client type error. -/
def DRes.isClientTypeErr {α : Type} (r : DRes α) : Prop :=
  ∃ msg, r = .fail (.clientTypeError msg)

/-- The result is a server type error. -/
def DRes.isServerTypeErr {α : Type} (r : DRes α) : Prop :=
  ∃ msg, r = .fail (.serverTypeError msg)

/-- UTF-8 continuation byte. -/
def isCont (b : Nat) : Bool := 128 ≤ b && b ≤ 191

/-- UTF-8 well-formedness of a byte sequence (the check performed by
`str::from_utf8` / `String::from_utf8`). -/
def validUtf8 : List Nat → Bool
  | [] => true
  | b :: rest =>
    if b ≤ 127 then validUtf8 rest
    else if 194 ≤ b && b ≤ 223 then
      match rest with
      | c1 :: r => isCont c1 && validUtf8 r
      | [] => false
    else if b = 224 then
      match rest with
      | c1 :: c2 :: r => (160 ≤ c1 && c1 ≤ 191) && isCont c2 && validUtf8 r
      | _ => false
    else if (225 ≤ b && b ≤ 236) || b = 238 || b = 239 then
      match rest with
      | c1 :: c2 :: r => isCont c1 && isCont c2 && validUtf8 r
      | _ => false
    else if b = 237 then
      match rest with
      | c1 :: c2 :: r => (128 ≤ c1 && c1 ≤ 159) && isCont c2 && validUtf8 r
      | _ => false
    else if b = 240 then
      match rest with
      | c1 :: c2 :: c3 :: r => (144 ≤ c1 && c1 ≤ 191) && isCont c2 && isCont c3 && validUtf8 r
      | _ => false
    else if 241 ≤ b && b ≤ 243 then
      match rest with
      | c1 :: c2 :: c3 :: r => isCont c1 && isCont c2 && isCont c3 && validUtf8 r
      | _ => false
    else if b = 244 then
      match rest with
      | c1 :: c2 :: c3 :: r => (128 ≤ c1 && c1 ≤ 143) && isCont c2 && isCont c3 && validUtf8 r
      | _ => false
    else false

/-- ASCII digit byte. -/
def isDigitByte (b : Nat) : Bool := 48 ≤ b && b ≤ 57

/-- ASCII lower-casing of a byte. -/
def toLowerByte (b : Nat) : Nat := if 65 ≤ b && b ≤ 90 then b + 32 else b

/-- Drop one optional leading ASCII sign. -/
def stripSignByte : List Nat → List Nat
  | [] => []
  | b :: r => if b = 43 || b = 45 then r else b :: r

/-- Split off the longest leading run of ASCII digits. -/
def spanDigits : List Nat → (List Nat × List Nat)
  | [] => ([], [])
  | b :: r =>
    if isDigitByte b then
      match spanDigits r with
      | (ds, rest) => (b :: ds, rest)
    else ([], b :: r)

/-- Split a byte list at the first `e`/`E`, if any. -/
def splitAtExpByte : List Nat → (List Nat × Option (List Nat))
  | [] => ([], none)
  | b :: r =>
    if b = 101 || b = 69 then ([], some r)
    else
      match splitAtExpByte r with
      | (pre, post) => (b :: pre, post)

/-- Mantissa of the Rust float grammar: `Count '.'? Count?` or `'.' Count`. -/
def isMantissaBytes (bs : List Nat) : Bool :=
  match spanDigits bs with
  | (ds, rest) =>
    if ds.isEmpty then
      match rest with
      | 46 :: r2 =>
        match spanDigits r2 with
        | (ds2, r3) => !ds2.isEmpty && r3.isEmpty
      | _ => false
    else
      match rest with
      | [] => true
      | 46 :: r2 =>
        match spanDigits r2 with
        | (_, r3) => r3.isEmpty
      | _ => false

/-- Exponent tail of the Rust float grammar: `Sign? Count`. -/
def isExpBytes (bs : List Nat) : Bool :=
  let bs2 := stripSignByte bs
  !bs2.isEmpty && bs2.all isDigitByte

/-- Case-insensitive comparison against a lower-case ASCII word. -/
def lowerEq (bs : List Nat) (word : List Nat) : Bool :=
  bs.map toLowerByte == word

/-- Decides whether a byte sequence is accepted by `f64::from_str`
(`Sign? (inf | infinity | nan | Number)` with `Number ::= Count '.'? Count?
Exp? | '.' Count Exp?`, `Exp ::= (e|E) Sign? Count`, case-insensitive words). -/
def isF64Literal (bs : List Nat) : Bool :=
  let body := stripSignByte bs
  lowerEq body [105, 110, 102] ||
  lowerEq body [105, 110, 102, 105, 110, 105, 116, 121] ||
  lowerEq body [110, 97, 110] ||
  (match splitAtExpByte body with
   | (mant, none) => isMantissaBytes mant
   | (mant, some ex) => isMantissaBytes mant && isExpBytes ex)

mutual
/-- Rust `Scalar`: a decoded query value (`result_set.rs`). `double` carries the
accepted literal bytes, since `f64` itself is not modelled. -/
inductive Scalar : Type where
  | nil
  | boolean (b : Bool)
  | integer (i : Int)
  | double (lit : List Nat)
  | string (s : RedisString)
  | array (elems : List Scalar)
  | edge (e : Edge)
  | node (n : Node)
  | path (p : RawPath)

/-- Rust `Node`: labels plus properties (properties as an association list). -/
inductive Node : Type where
  | mk (labels : List RedisString) (properties : List (RedisString × Scalar))

/-- Rust `Edge`: relationship type name plus properties. -/
inductive Edge : Type where
  | mk (typeName : RedisString) (properties : List (RedisString × Scalar))

/-- Rust `RawPath`: parallel node and edge lists. -/
inductive RawPath : Type where
  | mk (nodes : List Node) (edges : List Edge)
end

def Node.labels : Node → List RedisString
  | .mk ls _ => ls

def Node.properties : Node → List (RedisString × Scalar)
  | .mk _ ps => ps

def Edge.typeName : Edge → RedisString
  | .mk t _ => t

def Edge.properties : Edge → List (RedisString × Scalar)
  | .mk _ ps => ps

def RawPath.nodes : RawPath → List Node
  | .mk ns _ => ns

def RawPath.edges : RawPath → List Edge
  | .mk _ es => es

/-- Rust `RawPath::len`: the number of edges. -/
def RawPath.len (p : RawPath) : Nat := p.edges.length

/-- Rust `Path`: the linked traversal form (`Cons` / `End`). -/
inductive Path : Type where
  | cons (n : Node) (e : Edge) (rest : Path)
  | last (n1 : Node) (e : Edge) (n2 : Node)

/-- A single result-set column. -/
inductive Column : Type where
  | scalars (cells : List Scalar)
  | nodes (cells : List Node)
  | relations (cells : List Edge)

/-- Rust `Column::len`. -/
def Column.len : Column → Nat
  | .scalars cells => cells.length
  | .nodes cells => cells.length
  | .relations cells => cells.length

/-- Decoded statistics messages (UTF-8-validated byte strings). -/
abbrev Statistics := List (List Nat)

/-- A decoded result set. -/
structure ResultSet : Type where
  columns : List Column
  statistics : Statistics

/-- Rust `ResultSet::num_columns`. -/
def ResultSet.numColumns (rs : ResultSet) : Nat := rs.columns.length

/-- Rust `ResultSet::num_rows`: length of the first column, `0` if there are none. -/
def ResultSet.numRows (rs : ResultSet) : Nat :=
  match rs.columns with
  | [] => 0
  | firstColumn :: _ => firstColumn.len

/-- Rust `ResultSet::get_node`. -/
def ResultSet.getNode (rs : ResultSet) (rowIdx colIdx : Nat) : DRes Node :=
  match rs.columns.get? colIdx with
  | some column =>
    match column with
    | .nodes cells =>
      match cells.get? rowIdx with
      | some cell => .ok cell
      | none => .fail (.clientTypeError "failed to get node: row index out of bounds")
    | .scalars cells =>
      match cells.get? rowIdx with
      | some cell =>
        match cell with
        | .node n => .ok n
        | _ => .fail (.clientTypeError "failed to get node: tried to get node in scalar column")
      | none => .fail (.clientTypeError "failed to get node: row index out of bounds")
    | _ => .fail (.clientTypeError "failed to get node: expected column of nodes")
  | none => .fail (.clientTypeError "failed to get node: column index out of bounds")

/-- Rust `ResultSet::get_edge`. -/
def ResultSet.getEdge (rs : ResultSet) (rowIdx colIdx : Nat) : DRes Edge :=
  match rs.columns.get? colIdx with
  | some column =>
    match column with
    | .relations cells =>
      match cells.get? rowIdx with
      | some cell => .ok cell
      | none => .fail (.clientTypeError "failed to get edge: row index out of bounds")
    | .scalars cells =>
      match cells.get? rowIdx with
      | some cell =>
        match cell with
        | .edge e => .ok e
        | _ => .fail (.clientTypeError "failed to get edge: tried to get edge in scalar column")
      | none => .fail (.clientTypeError "failed to get edge: row index out of bounds")
    | _ => .fail (.clientTypeError "failed to get edge: expected column of relations or scalars")
  | none => .fail (.clientTypeError "failed to get edge: column index out of bounds")

/-- The per-session identifier caches (the three lists owned by `Graph`). -/
structure GraphState : Type where
  labels : List RedisString
  relationshipTypes : List RedisString
  propertyKeys : List RedisString

/-- Rust `i64 as usize`: twos complement wrap modulo `2^64`. -/
def intToUsize (i : Int) : Nat := (i % (2 ^ 64 : Int)).toNat

/-- Rust `usize` subtraction with release-profile wrap-around. -/
def usizeSub (a b : Nat) : Nat := (a + 2 ^ 64 - b) % 2 ^ 64

/-- The label-resolution loop of the node decoder: each wire label id is
looked up by position in the label cache of the session. -/
def resolveLabelIds (graphLabels : List RedisString) : List Value → DRes (List RedisString)
  | [] => .ok []
  | labelId :: rest =>
    match labelId with
    | .int id =>
      match graphLabels.get? (intToUsize id) with
      | some name => (resolveLabelIds graphLabels rest).bind fun names => .ok (name :: names)
      | none => .fail .labelNotFound
    | _ => .fail (.serverTypeError "expected integer as label ID")

/-- Collects path-nodes scalars into nodes (`TryFrom` loop in `RawPath` decode). -/
def extractNodes : List Scalar → DRes (List Node)
  | [] => .ok []
  | s :: rest =>
    match s with
    | .node n => (extractNodes rest).bind fun ns => .ok (n :: ns)
    | _ => .fail (.serverTypeError "unexpected non-node in path nodes array")

/-- Collects path-edges scalars into edges. -/
def extractEdges : List Scalar → DRes (List Edge)
  | [] => .ok []
  | s :: rest =>
    match s with
    | .edge e => (extractEdges rest).bind fun es => .ok (e :: es)
    | _ => .fail (.serverTypeError "unexpected non-edge in path edges array")

mutual
/-- Size of a value tree, used as recursion fuel for the decoders: strictly
larger than the combined size of the arguments of every (re-)entrant call the
Rust decoders make, so supplying `sizeVal v` as fuel can never exhaust. -/
def sizeVal : Value → Nat
  | .bulk vs => sizeValList vs + 1
  | _ => 1

def sizeValList : List Value → Nat
  | [] => 1
  | v :: r => sizeVal v + sizeValList r + 1
end

mutual

/-- Rust `FromRedisValueWithGraph for Scalar`: a scalar cell is a 2-element
`[type_tag, payload]` array. The `Nat` argument is recursion fuel (the Rust
recursion is bounded by the value tree; `decodeScalar` below supplies
`sizeVal`, which always suffices). -/
def decodeScalarF (g : GraphState) : Nat → Value → DRes Scalar
  | 0, _ => .panicked "recursion limit exceeded"
  | n + 1, v =>
    match v with
    | .bulk values =>
      match values with
      | [st, sv] => decodeScalarTaggedF g n st sv
      | _ => .fail (.serverTypeError "expected array of size 2 as scalar representation")
    | _ => .fail (.serverTypeError "expected array as scalar representation")

/-- The tag dispatch of the scalar decoder (the body of the Rust `match` on
`ScalarType::from_i64`), taking tag and payload separately so that the
property decoder can re-enter it on its reconstructed `[type, value]` pair. -/
def decodeScalarTaggedF (g : GraphState) : Nat → Value → Value → DRes Scalar
  | 0, _, _ => .panicked "recursion limit exceeded"
  | n + 1, scalarType, scalarValue =>
    match scalarType with
    | .int t =>
      if t = 0 then .fail (.serverTypeError "scalar type is unknown")
      else if t = 1 then .ok .nil
      else if t = 2 then
        match scalarValue with
        | .data stringData => .ok (.string stringData)
        | _ => .fail (.serverTypeError "expected binary data as scalar value (scalar type is string)")
      else if t = 3 then
        match scalarValue with
        | .int integer => .ok (.integer integer)
        | _ => .fail (.serverTypeError "expected integer as scalar value (scalar type is integer)")
      else if t = 4 then
        match scalarValue with
        | .data boolData =>
          if boolData = [116, 114, 117, 101] then .ok (.boolean true)
          else if boolData = [102, 97, 108, 115, 101] then .ok (.boolean false)
          else .fail (.serverTypeError "expected either true or false as scalar value (scalar type is boolean)")
        | _ => .fail (.serverTypeError "expected binary data as scalar value (scalar type is boolean)")
      else if t = 5 then
        match scalarValue with
        | .data doubleData =>
          if validUtf8 doubleData then
            if isF64Literal doubleData then .ok (.double doubleData)
            else .fail (.serverTypeError "expected string representation of double as scalar value (scalar type is double)")
          else .fail .invalidUtf8
        | _ => .fail (.serverTypeError "expected string representing a double as scalar value (scalar type is double)")
      else if t = 6 then
        match scalarValue with
        | .bulk elements => (decodeScalarListF g n elements).bind fun xs => .ok (.array xs)
        | _ => .fail (.serverTypeError "expected something for array")
      else if t = 7 then
        match decodeEdgeF g n scalarValue with
        | .ok e => .ok (.edge e)
        | .fail e => .fail e
        | .panicked m => .panicked m
      else if t = 8 then
        match decodeNodeF g n scalarValue with
        | .ok nd => .ok (.node nd)
        | .fail e => .fail e
        | .panicked m => .panicked m
      else if t = 9 then
        match decodeRawPathF g n scalarValue with
        | .ok p => .ok (.path p)
        | .fail e => .fail e
        | .panicked m => .panicked m
      else .fail (.serverTypeError "expected integer between 0 and 9 (scalar type) as first element of scalar array")
    | _ => .fail (.serverTypeError "expected integer representing scalar type as first element of scalar array")

/-- Element-wise decoding of an array payload, short-circuiting on the first
element error. -/
def decodeScalarListF (g : GraphState) : Nat → List Value → DRes (List Scalar)
  | _, [] => .ok []
  | 0, _ :: _ => .panicked "recursion limit exceeded"
  | n + 1, v :: rest =>
    match decodeScalarF g n v with
    | .ok s => (decodeScalarListF g n rest).bind fun xs => .ok (s :: xs)
    | .fail e => .fail e
    | .panicked m => .panicked m

/-- Rust `FromRedisValueWithGraph for Node`: `[id(ignored), label_ids, properties]`. -/
def decodeNodeF (g : GraphState) : Nat → Value → DRes Node
  | 0, _ => .panicked "recursion limit exceeded"
  | n + 1, v =>
    match v with
    | .bulk values =>
      match values with
      | [_, labelIds, properties] =>
        match labelIds with
        | .bulk ids =>
          (resolveLabelIds g.labels ids).bind fun labels =>
          (parsePropertiesF g n properties).bind fun props =>
          .ok (.mk labels props)
        | _ => .fail (.serverTypeError "expected array as label IDs")
      | _ => .fail (.serverTypeError "expected array of size 3 as node representation")
    | _ => .fail (.serverTypeError "expected array as node representation")

/-- Rust `FromRedisValueWithGraph for Edge`: `[id, type_id, src, dst, properties]`. -/
def decodeEdgeF (g : GraphState) : Nat → Value → DRes Edge
  | 0, _ => .panicked "recursion limit exceeded"
  | n + 1, v =>
    match v with
    | .bulk values =>
      match values with
      | [_, typeId, _, _, properties] =>
        match typeId with
        | .int id =>
          match g.relationshipTypes.get? (intToUsize id) with
          | some typeName =>
            (parsePropertiesF g n properties).bind fun props =>
            .ok (.mk typeName props)
          | none => .fail .relationshipTypeNotFound
        | _ => .fail (.serverTypeError "expected integer as relationship type ID")
      | _ => .fail (.serverTypeError "expected array of size 5 as edge representation")
    | _ => .fail (.serverTypeError "expected array as edge representation")

/-- Rust `FromRedisValueWithGraph for RawPath`: `[nodes_payload, edges_payload]`,
each side decoded through the scalar decoder and required to be an array of
node / edge scalars. -/
def decodeRawPathF (g : GraphState) : Nat → Value → DRes RawPath
  | 0, _ => .panicked "recursion limit exceeded"
  | n + 1, v =>
    match v with
    | .bulk values =>
      match values with
      | [nodesV, edgesV] =>
        match decodeScalarF g n nodesV with
        | .ok s =>
          (match s with
           | .array nodeScalars => extractNodes nodeScalars
           | _ => .fail (.serverTypeError "expected path nodes to be an array")).bind fun ns =>
          (match decodeScalarF g n edgesV with
           | .ok s2 =>
             match s2 with
             | .array edgeScalars => extractEdges edgeScalars
             | _ => .fail (.serverTypeError "expected path nodes to be an array")
           | .fail e => .fail e
           | .panicked m => .panicked m).bind fun es =>
          .ok (.mk ns es)
        | .fail e => .fail e
        | .panicked m => .panicked m
      | _ => .fail (.serverTypeError "expected array of size 2 as path representation")
    | _ => .fail (.serverTypeError "expected array as path representation")

/-- Rust `parse_properties`: a property array attached to a node or edge. -/
def parsePropertiesF (g : GraphState) : Nat → Value → DRes (List (RedisString × Scalar))
  | 0, _ => .panicked "recursion limit exceeded"
  | n + 1, v =>
    match v with
    | .bulk properties => parsePropertyListF g n properties
    | _ => .fail (.serverTypeError "expected array as properties representation")

/-- The per-entry loop of `parse_properties`: each entry is
`[key_id, value_type, value_payload]`; the key resolves through the
property-key cache and `[value_type, value_payload]` re-enters the scalar
decoder. -/
def parsePropertyListF (g : GraphState) : Nat → List Value → DRes (List (RedisString × Scalar))
  | _, [] => .ok []
  | 0, _ :: _ => .panicked "recursion limit exceeded"
  | n + 1, p :: rest =>
    match p with
    | .bulk property =>
      match property with
      | [keyId, propType, propValue] =>
        match keyId with
        | .int id =>
          match g.propertyKeys.get? (intToUsize id) with
          | some key =>
            (decodeScalarTaggedF g n propType propValue).bind fun value =>
            (parsePropertyListF g n rest).bind fun restProps =>
            .ok ((key, value) :: restProps)
          | none => .fail .propertyKeyNotFound
        | _ => .fail (.serverTypeError "expected integer as property key ID")
      | _ => .fail (.serverTypeError "expected array of size 3 as properties representation")
    | _ => .fail (.serverTypeError "expected array as properties representation")

end

/-- The scalar decoder at its canonical (always sufficient) fuel. -/
def decodeScalar (g : GraphState) (v : Value) : DRes Scalar :=
  decodeScalarF g (sizeVal v) v

/-- The node decoder at its canonical fuel. -/
def decodeNode (g : GraphState) (v : Value) : DRes Node :=
  decodeNodeF g (sizeVal v) v

/-- The edge decoder at its canonical fuel. -/
def decodeEdge (g : GraphState) (v : Value) : DRes Edge :=
  decodeEdgeF g (sizeVal v) v

/-- The raw-path decoder at its canonical fuel. -/
def decodeRawPath (g : GraphState) (v : Value) : DRes RawPath :=
  decodeRawPathF g (sizeVal v) v

/-- The property decoder at its canonical fuel. -/
def parseProperties (g : GraphState) (v : Value) : DRes (List (RedisString × Scalar)) :=
  parsePropertiesF g (sizeVal v) v

/-- Entry loop of `parse_statistics`. -/
def parseStatisticsList : List Value → DRes Statistics
  | [] => .ok []
  | e :: rest =>
    match e with
    | .data utf8 =>
      if validUtf8 utf8 then
        (parseStatisticsList rest).bind fun xs => .ok (utf8 :: xs)
      else .fail .invalidUtf8
    | _ => .fail (.serverTypeError "expected string as statistics entry")

/-- Rust `parse_statistics`: a list of UTF-8 byte strings. -/
def parseStatistics (v : Value) : DRes Statistics :=
  match v with
  | .bulk entries => parseStatisticsList entries
  | _ => .fail (.serverTypeError "expected array as statistics list")

/-- Conversion of the row area of the reply into `result_table`: every row must be
an array. -/
def rowsToTable : List Value → DRes (List (List Value))
  | [] => .ok []
  | row :: rest =>
    match row with
    | .bulk r => (rowsToTable rest).bind fun t => .ok (r :: t)
    | _ => .fail (.serverTypeError "expected array as result row representation")

def toResultTable : Value → DRes (List (List Value))
  | .bulk rows => rowsToTable rows
  | _ => .fail (.serverTypeError "expected array as result table representation")

/-- One scalar column: decodes `row[i]` for every row; `row[i]` on a too-short
row is a Rust indexing panic. -/
def decodeScalarColumn (g : GraphState) (i : Nat) : List (List Value) → DRes (List Scalar)
  | [] => .ok []
  | row :: rest =>
    match row.get? i with
    | some cell =>
      match decodeScalar g cell with
      | .ok s => (decodeScalarColumn g i rest).bind fun xs => .ok (s :: xs)
      | .fail e => .fail e
      | .panicked m => .panicked m
    | none => .panicked "index out of bounds"

/-- One node column. -/
def decodeNodeColumn (g : GraphState) (i : Nat) : List (List Value) → DRes (List Node)
  | [] => .ok []
  | row :: rest =>
    match row.get? i with
    | some cell =>
      match decodeNode g cell with
      | .ok n => (decodeNodeColumn g i rest).bind fun xs => .ok (n :: xs)
      | .fail e => .fail e
      | .panicked m => .panicked m
    | none => .panicked "index out of bounds"

/-- One relation column. -/
def decodeEdgeColumn (g : GraphState) (i : Nat) : List (List Value) → DRes (List Edge)
  | [] => .ok []
  | row :: rest =>
    match row.get? i with
    | some cell =>
      match decodeEdge g cell with
      | .ok e => (decodeEdgeColumn g i rest).bind fun xs => .ok (e :: xs)
      | .fail e => .fail e
      | .panicked m => .panicked m
    | none => .panicked "index out of bounds"

/-- One iteration of the header loop: `header_cell[0]` selects the column
type (`header_cell[0]` on an empty header cell is an indexing panic). -/
def buildColumn (g : GraphState) (resultTable : List (List Value)) (headerCell : Value)
    (i : Nat) : DRes Column :=
  match headerCell with
  | .bulk cellParts =>
    match cellParts with
    | [] => .panicked "index out of bounds"
    | columnTypeV :: _ =>
      match columnTypeV with
      | .int columnType =>
        if columnType = 0 then .fail (.serverTypeError "column type is unknown")
        else if columnType = 1 then
          (decodeScalarColumn g i resultTable).bind fun cells => .ok (.scalars cells)
        else if columnType = 2 then
          (decodeNodeColumn g i resultTable).bind fun cells => .ok (.nodes cells)
        else if columnType = 3 then
          (decodeEdgeColumn g i resultTable).bind fun cells => .ok (.relations cells)
        else .fail (.serverTypeError "expected integer between 0 and 3 as column type")
      | _ => .fail (.serverTypeError "expected integer as column type")
  | _ => .fail (.serverTypeError "expected array as header cell representation")

/-- The `for i in 0..column_count` loop over header cells. -/
def buildColumns (g : GraphState) (resultTable : List (List Value)) :
    List Value → Nat → DRes (List Column)
  | [], _ => .ok []
  | hc :: rest, i =>
    match buildColumn g resultTable hc i with
    | .ok c => (buildColumns g resultTable rest (i + 1)).bind fun cs => .ok (c :: cs)
    | .fail e => .fail e
    | .panicked m => .panicked m

/-- The post-loop equal-length check over the decoded columns. -/
def allSameLen : List Column → Bool
  | [] => true
  | firstColumn :: rest => (firstColumn :: rest).all fun c => c.len == firstColumn.len

/-- Rust `FromRedisValueWithGraph for ResultSet`: the full reply envelope, either
`[header, rows, statistics]` or `[statistics]`. -/
def decodeResultSet (g : GraphState) (v : Value) : DRes ResultSet :=
  match v with
  | .bulk values =>
    match values with
    | [headerRow, resultRows, statisticsV] =>
      match headerRow with
      | .bulk headerCells =>
        match toResultTable resultRows with
        | .ok resultTable =>
          match buildColumns g resultTable headerCells 0 with
          | .ok columns =>
            if allSameLen columns then
              match parseStatistics statisticsV with
              | .ok stats => .ok ⟨columns, stats⟩
              | .fail e => .fail e
              | .panicked m => .panicked m
            else .fail (.serverTypeError "result columns have unequal lengths")
          | .fail e => .fail e
          | .panicked m => .panicked m
        | .fail e => .fail e
        | .panicked m => .panicked m
      | _ => .fail (.serverTypeError "expected array as header row representation")
    | [statisticsV] =>
      match parseStatistics statisticsV with
      | .ok stats => .ok ⟨[], stats⟩
      | .fail e => .fail e
      | .panicked m => .panicked m
    | _ => .fail (.serverTypeError "expected array of size 3 or 1 as result set representation")
  | _ => .fail (.serverTypeError "expected array as result set representation")

def defaultNode : Node := .mk [] []

def defaultEdge : Edge := .mk [] []

/-- Rust ascending inclusive range `a..=b` as the list of its elements
(empty when `a > b` — inclusive ranges do not iterate downwards). -/
def rangeIncl (a b : Nat) : List Nat :=
  if a ≤ b then List.range' a (b + 1 - a) else []

/-- The `for i in (len - 2)..=0` loop body of `TryFrom<RawPath> for Path`:
each visited index wraps the accumulated segment in a `Cons`. -/
def buildSegments (nodes : List Node) (edges : List Edge) : List Nat → Path → Path
  | [], seg => seg
  | i :: rest, seg =>
    buildSegments nodes edges rest
      (.cons (nodes.getD i defaultNode) (edges.getD i defaultEdge) seg)

/-- Rust `TryFrom<RawPath> for Path` (`result_set.rs`), including the
`(len - 2)..=0` range exactly as written (with `usize` wrap-around on
`len - 2`). -/
def tryFromRawPath (path : RawPath) : DRes Path :=
  if path.edges.isEmpty then
    .fail (.serverTypeError "failed to convert RawPath to Path: no segments to traverse")
  else if path.nodes.length ≠ path.edges.length + 1 then
    .fail (.serverTypeError "failed to convert RawPath to Path: wrong number of nodes")
  else
    let len := path.len
    let seg0 : Path :=
      .last (path.nodes.getD (len - 1) defaultNode) (path.edges.getD (len - 1) defaultEdge)
        (path.nodes.getD len defaultNode)
    .ok (buildSegments path.nodes path.edges (rangeIncl (usizeSub len 2) 0) seg0)

/-- Rust `From<Path> for RawPath`: forward traversal collecting the leading node of each segment and edge, plus the trailing node of the final segment. -/
def pathToRawPath : Path → RawPath
  | .cons n e rest =>
    match pathToRawPath rest with
    | .mk ns es => .mk (n :: ns) (e :: es)
  | .last n1 e n2 => .mk [n1, n2] [e]

/-- The cell loop of the macro-generated tuple `FromRow` code: element `k` is
converted from the cell at the requested row and column `k` (column indices
count up from the given start), short-circuiting on the first error. The
generated `N` heterogeneous type parameters and their `FromCell` instances are
modelled by a list of cell-converter functions. -/
def tupleCells {α : Type} (rs : ResultSet) (rowIdx : Nat) :
    List (ResultSet → Nat → Nat → DRes α) → Nat → DRes (List α)
  | [], _ => .ok []
  | f :: rest, i =>
    (f rs rowIdx i).bind fun a =>
    (tupleCells rs rowIdx rest (i + 1)).bind fun xs =>
    .ok (a :: xs)

/-- Rust `FromRow` for an `N`-tuple: fails with a client type error unless
`num_columns` equals the tuple arity, then converts cell `k` of the row for
each `k`. -/
def tupleFromRow {α : Type} (fs : List (ResultSet → Nat → Nat → DRes α)) (rs : ResultSet)
    (rowIdx : Nat) : DRes (List α) :=
  if rs.numColumns ≠ fs.length then
    .fail (.clientTypeError "failed to construct tuple: tuple entry count does not match result table column count")
  else tupleCells rs rowIdx fs 0

/-- The `for i in 0..num_rows` loop of `FromTable for Vec<T>`. -/
def vecRows {α : Type} (fromRow : ResultSet → Nat → DRes α) (rs : ResultSet) :
    List Nat → DRes (List α)
  | [] => .ok []
  | i :: rest =>
    (fromRow rs i).bind fun a =>
    (vecRows fromRow rs rest).bind fun xs =>
    .ok (a :: xs)

/-- Rust `FromTable for Vec<T>`: one conversion per row index in `[0, num_rows)`. -/
def vecFromTable {α : Type} (fromRow : ResultSet → Nat → DRes α) (rs : ResultSet) :
    DRes (List α) :=
  vecRows fromRow rs (List.range rs.numRows)

/-- The fixed responses the external server returns to the three cache-refresh
administrative queries (`CALL db.labels()` etc.). -/
structure Server : Type where
  labelsResp : Value
  relationshipTypesResp : Value
  propertyKeysResp : Value

/-- The scalar-to-string loop of `Graph::get_mapping`. -/
def mapScalarsToStrings : List Scalar → DRes (List RedisString)
  | [] => .ok []
  | s :: rest =>
    match s with
    | .string str => (mapScalarsToStrings rest).bind fun xs => .ok (str :: xs)
    | _ => .fail (.serverTypeError "expected strings in first column of result set")

/-- Rust `Graph::get_mapping`: decodes a refresh response and reads its first
column as a list of strings (`columns[0]` on an empty column list is an
indexing panic). -/
def getMapping (g : GraphState) (resp : Value) : DRes (List RedisString) :=
  match decodeResultSet g resp with
  | .ok rs =>
    match rs.columns with
    | [] => .panicked "index out of bounds"
    | c :: _ =>
      match c with
      | .scalars cells => mapScalarsToStrings cells
      | _ => .fail (.serverTypeError "expected scalars as first column in result set")
  | .fail e => .fail e
  | .panicked m => .panicked m

/-- Rust `Graph::update_labels`: replaces the label cache with the mapping decoded
from the server response. -/
def updateLabels (srv : Server) (g : GraphState) : DRes GraphState :=
  match getMapping g srv.labelsResp with
  | .ok ls => .ok { g with labels := ls }
  | .fail e => .fail e
  | .panicked m => .panicked m

/-- Rust `Graph::update_relationship_types`. -/
def updateRelationshipTypes (srv : Server) (g : GraphState) : DRes GraphState :=
  match getMapping g srv.relationshipTypesResp with
  | .ok ts => .ok { g with relationshipTypes := ts }
  | .fail e => .fail e
  | .panicked m => .panicked m

/-- Rust `Graph::update_property_keys`. -/
def updatePropertyKeys (srv : Server) (g : GraphState) : DRes GraphState :=
  match getMapping g srv.propertyKeysResp with
  | .ok ks => .ok { g with propertyKeys := ks }
  | .fail e => .fail e
  | .panicked m => .panicked m

/-- Rust `Graph::get_result_set` with an explicit fuel bound on the number of
decode attempts: the Rust function is recursive with no bound, so `none`
means the recursion is still running after `fuel` attempts. Each
identifier-not-found failure refreshes the matching cache and re-decodes the
same original reply value; every other outcome is returned immediately. -/
def getResultSetFuel (srv : Server) : Nat → GraphState → Value → Option (DRes ResultSet × GraphState)
  | 0, _, _ => none
  | Nat.succ n, g, v =>
    match decodeResultSet g v with
    | .ok rs => some (.ok rs, g)
    | .fail .labelNotFound =>
      match updateLabels srv g with
      | .ok gNew => getResultSetFuel srv n gNew v
      | .fail e => some (.fail e, g)
      | .panicked m => some (.panicked m, g)
    | .fail .relationshipTypeNotFound =>
      match updateRelationshipTypes srv g with
      | .ok gNew => getResultSetFuel srv n gNew v
      | .fail e => some (.fail e, g)
      | .panicked m => some (.panicked m, g)
    | .fail .propertyKeyNotFound =>
      match updatePropertyKeys srv g with
      | .ok gNew => getResultSetFuel srv n gNew v
      | .fail e => some (.fail e, g)
      | .panicked m => some (.panicked m, g)
    | .fail e => some (.fail e, g)
    | .panicked m => some (.panicked m, g)

/-! ## Shared concrete inputs and helper lemmas -/

/-- A fresh session state: all three identifier caches empty. -/
def emptyGraph : GraphState := ⟨[], [], []⟩

/-- A node with a single one-byte label and no properties, for path tests. -/
def pnode (k : Nat) : Node := .mk [[k]] []

/-- An edge with a one-byte type name and no properties, for path tests. -/
def pedge (k : Nat) : Edge := .mk [k] []

/-- A three-edge raw path (4 nodes, 3 edges) satisfying the shape invariant. -/
def rawPath3 : RawPath :=
  .mk [pnode 0, pnode 1, pnode 2, pnode 3] [pedge 0, pedge 1, pedge 2]

/-- The cell at `(rowIdx, colIdx)` holds node `n`: either the column is a
nodes column, or it is a scalars column whose cell is `Scalar::Node`. -/
def nodeCellAt (rs : ResultSet) (rowIdx colIdx : Nat) (n : Node) : Prop :=
  (∃ cells, rs.columns.get? colIdx = some (.nodes cells) ∧ cells.get? rowIdx = some n) ∨
  (∃ cells, rs.columns.get? colIdx = some (.scalars cells) ∧ cells.get? rowIdx = some (.node n))

/-- The cell at `(rowIdx, colIdx)` holds edge `e`: either the column is a
relations column, or it is a scalars column whose cell is `Scalar::Edge`. -/
def edgeCellAt (rs : ResultSet) (rowIdx colIdx : Nat) (e : Edge) : Prop :=
  (∃ cells, rs.columns.get? colIdx = some (.relations cells) ∧ cells.get? rowIdx = some e) ∨
  (∃ cells, rs.columns.get? colIdx = some (.scalars cells) ∧ cells.get? rowIdx = some (.edge e))

/-- Envelope whose header declares two scalar columns but whose single row has
no cells: `row[i]` then panics inside the column loop. -/
def vShortRow : Value :=
  .bulk [.bulk [.bulk [.int 1], .bulk [.int 1]], .bulk [.bulk []], .bulk []]

/-- A node cell carrying label id `0` and no properties. -/
def nodeCellV : Value := .bulk [.int 0, .bulk [.int 0], .bulk []]

/-- A full reply envelope with one node column and one row containing
`nodeCellV`: decoding needs label id `0` to resolve. -/
def vNodeEnvelope : Value :=
  .bulk [.bulk [.bulk [.int 2]], .bulk [.bulk [nodeCellV]], .bulk []]

/-- A refresh response whose mapping is empty: one scalar column with zero
rows. Refreshing against it leaves an empty cache empty. -/
def emptyMappingResp : Value :=
  .bulk [.bulk [.bulk [.int 1]], .bulk [], .bulk []]

/-- A server on which every identifier cache refresh yields the empty list. -/
def srv0 : Server := ⟨emptyMappingResp, emptyMappingResp, emptyMappingResp⟩

/-- A session whose label cache has exactly one entry, the byte string "A". -/
def oneLabelGraph : GraphState := ⟨[[65]], [], []⟩

/-- An edge cell carrying relationship-type id `0` and no properties. -/
def edgeCellV : Value := .bulk [.int 0, .int 0, .int 0, .int 0, .bulk []]

/-- A full reply envelope with one relation column and one row containing
`edgeCellV`: decoding needs relationship-type id `0` to resolve. -/
def vEdgeEnvelope : Value :=
  .bulk [.bulk [.bulk [.int 3]], .bulk [.bulk [edgeCellV]], .bulk []]

/-- A node cell with no labels and a single property whose key id is `0`. -/
def propMissCellV : Value :=
  .bulk [.int 0, .bulk [], .bulk [.bulk [.int 0, .int 1, .nil]]]

/-- A full reply envelope with one node column and one row containing
`propMissCellV`: decoding needs property key id `0` to resolve. -/
def vPropEnvelope : Value :=
  .bulk [.bulk [.bulk [.int 2]], .bulk [.bulk [propMissCellV]], .bulk []]

/-! ## C8: RawPath → Path conversion fails on empty edges or shape mismatch -/

/-- Claim C8: for every `RawPath` whose edges list is empty, conversion to the
linked `Path` form fails with an error, and the conversion likewise fails
whenever `nodes.len() != edges.len() + 1`. -/
theorem rawPath_toPath_fails_on_bad_shape (p : RawPath)
    (h : p.edges = [] ∨ p.nodes.length ≠ p.edges.length + 1) :
    (tryFromRawPath p).isServerTypeErr := by
  rcases h with h | h
  · exact ⟨"failed to convert RawPath to Path: no segments to traverse",
      by unfold tryFromRawPath; simp [h]⟩
  · by_cases he : p.edges.isEmpty
    · exact ⟨"failed to convert RawPath to Path: no segments to traverse",
        by unfold tryFromRawPath; simp [he]⟩
    · exact ⟨"failed to convert RawPath to Path: wrong number of nodes",
        by unfold tryFromRawPath; simp [he, h]⟩

/-- Witness for C8 at the empty raw path. -/
theorem rawPath_toPath_fails_on_bad_shape_witness :
    ((RawPath.mk [] []).edges = [] ∨
      (RawPath.mk [] []).nodes.length ≠ (RawPath.mk [] []).edges.length + 1) ∧
    (tryFromRawPath (.mk [] [])).isServerTypeErr :=
  ⟨Or.inl rfl, rawPath_toPath_fails_on_bad_shape (.mk [] []) (Or.inl rfl)⟩

/-! ## C2: the RawPath → Path → RawPath round-trip is broken for 3+ edges

The conversion loop is written `for i in (len - 2)..=0`, but a Rust inclusive
range never iterates downwards: for `len ≥ 3` the range is empty, so every
segment except the final one is dropped. -/

/-- Claim C2 (code bug): on the 3-edge path `rawPath3` the conversion
succeeds but produces only the final segment, and converting back yields a
raw path with 2 nodes and 1 edge — not equal to the input. -/
theorem rawPath_roundtrip_drops_segments :
    tryFromRawPath rawPath3 = .ok (.last (pnode 2) (pedge 2) (pnode 3)) ∧
    pathToRawPath (.last (pnode 2) (pedge 2) (pnode 3)) ≠ rawPath3 := by
  constructor
  · rfl
  · intro h
    simp [pathToRawPath, rawPath3, pnode, pedge] at h

/-! ## C10: Vec projection of a zero-column result set -/

/-- Claim C10: projecting a zero-column `ResultSet` (in particular one decoded
from a statistics-only 1-element envelope) into a homogeneous collection
always returns the empty vector, without invoking the per-row conversion. -/
theorem vec_from_table_no_columns {α : Type} (fromRow : ResultSet → Nat → DRes α)
    (g : GraphState) (s : Value) (rs : ResultSet) :
    (rs.columns = [] → vecFromTable fromRow rs = .ok []) ∧
    (decodeResultSet g (.bulk [s]) = .ok rs → vecFromTable fromRow rs = .ok []) := by
  have base : rs.columns = [] → vecFromTable fromRow rs = .ok [] := by
    intro h
    unfold vecFromTable
    have : rs.numRows = 0 := by unfold ResultSet.numRows; rw [h]
    rw [this]
    rfl
  refine ⟨base, fun h => base ?_⟩
  have h2 : (match parseStatistics s with
      | DRes.ok stats => DRes.ok (⟨[], stats⟩ : ResultSet)
      | DRes.fail e => DRes.fail e
      | DRes.panicked m => DRes.panicked m) = DRes.ok rs := h
  rcases hs : parseStatistics s with stats | e | m <;> rw [hs] at h2
  · cases h2
    rfl
  · exact absurd h2 (by simp)
  · exact absurd h2 (by simp)

/-- Witness for C10 on a concrete empty result set. -/
theorem vec_from_table_no_columns_witness :
    vecFromTable (fun _ _ => DRes.ok (0 : Nat)) ⟨[], []⟩ = .ok [] :=
  (vec_from_table_no_columns (fun _ _ => DRes.ok (0 : Nat)) emptyGraph .nil ⟨[], []⟩).1 rfl

/-! ## C5: tuple projection -/

/-- Length of a successful `tupleCells` result. -/
lemma tupleCells_ok_length {α : Type} (rs : ResultSet) (rowIdx : Nat)
    (fs : List (ResultSet → Nat → Nat → DRes α)) :
    ∀ i l, tupleCells rs rowIdx fs i = .ok l → l.length = fs.length := by
  induction fs with
  | nil =>
    intro i l h
    simp [tupleCells] at h
    simp [← h]
  | cons f rest ih =>
    intro i l h
    simp only [tupleCells] at h
    rcases hf : f rs rowIdx i with a | e | m <;> rw [hf] at h <;>
      simp [DRes.bind] at h
    rcases hr : tupleCells rs rowIdx rest (i + 1) with xs | e | m <;> rw [hr] at h <;>
      simp [DRes.bind] at h
    rw [← h]
    simp [ih (i + 1) xs hr]

/-- When every converter succeeds, `tupleCells` collects their values
column-by-column starting at the given index. -/
lemma tupleCells_ok_values {α : Type} (rs : ResultSet) (rowIdx : Nat) (vals : Nat → α) :
    ∀ (fs : List (ResultSet → Nat → Nat → DRes α)) (i : Nat),
    (∀ k, (hk : k < fs.length) → (fs.get ⟨k, hk⟩) rs rowIdx (i + k) = .ok (vals (i + k))) →
    tupleCells rs rowIdx fs i = .ok ((List.range fs.length).map fun k => vals (i + k)) := by
  intro fs
  induction fs with
  | nil => intro i _; simp [tupleCells]
  | cons f rest ih =>
    intro i h
    have h0 : f rs rowIdx i = .ok (vals i) := by
      have := h 0 (by simp)
      simpa using this
    have hrest : tupleCells rs rowIdx rest (i + 1) =
        .ok ((List.range rest.length).map fun k => vals (i + 1 + k)) := by
      refine ih (i + 1) fun k hk => ?_
      have := h (k + 1) (by simpa using Nat.succ_lt_succ hk)
      have harith : i + (k + 1) = i + 1 + k := by omega
      simpa [harith] using this
    simp only [tupleCells, h0, hrest, DRes.bind]
    congr 1
    simp [List.range_succ_eq_map, List.map_map, Function.comp]
    intro a _
    congr 1
    omega

/-- Claim C5: projecting a row into an `N`-tuple (modelled as a list of `N`
cell converters, `1 ≤ N ≤ 12`) fails with a client type error whenever the
column count differs from `N`, never panics or truncates (a successful result
has exactly `N` entries), and on a column-count match element `k` is converted
from the cell at the requested row and column `k`. -/
theorem tuple_from_row_spec {α : Type} (fs : List (ResultSet → Nat → Nat → DRes α))
    (rs : ResultSet) (rowIdx : Nat) (vals : Nat → α)
    (_hlo : 1 ≤ fs.length) (_hhi : fs.length ≤ 12) :
    (rs.numColumns ≠ fs.length →
      tupleFromRow fs rs rowIdx =
        .fail (.clientTypeError "failed to construct tuple: tuple entry count does not match result table column count")) ∧
    (∀ l, tupleFromRow fs rs rowIdx = .ok l → l.length = fs.length) ∧
    (rs.numColumns = fs.length →
      (∀ k, (hk : k < fs.length) → (fs.get ⟨k, hk⟩) rs rowIdx k = .ok (vals k)) →
      tupleFromRow fs rs rowIdx = .ok ((List.range fs.length).map vals)) := by
  refine ⟨fun hne => ?_, fun l hl => ?_, fun heq hall => ?_⟩
  · unfold tupleFromRow
    simp [hne]
  · unfold tupleFromRow at hl
    by_cases hne : rs.numColumns ≠ fs.length
    · simp [hne] at hl
    · simp [hne] at hl
      exact tupleCells_ok_length rs rowIdx fs 0 l hl
  · unfold tupleFromRow
    simp only [heq, ne_eq, not_true_eq_false, if_false]
    have := tupleCells_ok_values rs rowIdx vals fs 0 (by simpa using hall)
    simpa using this

/-- Witness for C5: a 2-column result set projected to a 1-tuple fails with
the column-count client type error. -/
theorem tuple_from_row_spec_witness :
    tupleFromRow [fun _ _ _ => DRes.ok (0 : Nat)] ⟨[.scalars [], .scalars []], []⟩ 0 =
      .fail (.clientTypeError "failed to construct tuple: tuple entry count does not match result table column count") :=
  (tuple_from_row_spec [fun _ _ _ => DRes.ok (0 : Nat)] ⟨[.scalars [], .scalars []], []⟩ 0
    (fun _ => 0) (by decide) (by decide)).1 (by decide)

/-! ## C9: get_node / get_edge accessors -/

/-- Rust `get_node` returns exactly the node cells and otherwise a client error. -/
lemma getNode_spec (rs : ResultSet) (rowIdx colIdx : Nat) :
    (∀ n, rs.getNode rowIdx colIdx = .ok n ↔ nodeCellAt rs rowIdx colIdx n) ∧
    ((∃ n, rs.getNode rowIdx colIdx = .ok n) ∨ (rs.getNode rowIdx colIdx).isClientTypeErr) := by
  rcases hc : rs.columns[colIdx]? with _ | col
  · constructor
    · intro n
      simp [ResultSet.getNode, nodeCellAt, hc]
    · right
      exact ⟨"failed to get node: column index out of bounds",
        by simp [ResultSet.getNode, hc]⟩
  · cases col with
    | scalars cells =>
      rcases hr : cells[rowIdx]? with _ | cell
      · constructor
        · intro n
          simp [ResultSet.getNode, nodeCellAt, hc, hr]
        · right
          exact ⟨"failed to get node: row index out of bounds",
            by simp [ResultSet.getNode, hc, hr]⟩
      · cases cell with
        | node n2 =>
          constructor
          · intro n
            simp [ResultSet.getNode, nodeCellAt, hc, hr]
          · left
            exact ⟨n2, by simp [ResultSet.getNode, hc, hr]⟩
        | nil =>
          refine ⟨fun n => by simp [ResultSet.getNode, nodeCellAt, hc, hr], Or.inr ?_⟩
          exact ⟨"failed to get node: tried to get node in scalar column",
            by simp [ResultSet.getNode, hc, hr]⟩
        | boolean b =>
          refine ⟨fun n => by simp [ResultSet.getNode, nodeCellAt, hc, hr], Or.inr ?_⟩
          exact ⟨"failed to get node: tried to get node in scalar column",
            by simp [ResultSet.getNode, hc, hr]⟩
        | integer i =>
          refine ⟨fun n => by simp [ResultSet.getNode, nodeCellAt, hc, hr], Or.inr ?_⟩
          exact ⟨"failed to get node: tried to get node in scalar column",
            by simp [ResultSet.getNode, hc, hr]⟩
        | double lit =>
          refine ⟨fun n => by simp [ResultSet.getNode, nodeCellAt, hc, hr], Or.inr ?_⟩
          exact ⟨"failed to get node: tried to get node in scalar column",
            by simp [ResultSet.getNode, hc, hr]⟩
        | string s =>
          refine ⟨fun n => by simp [ResultSet.getNode, nodeCellAt, hc, hr], Or.inr ?_⟩
          exact ⟨"failed to get node: tried to get node in scalar column",
            by simp [ResultSet.getNode, hc, hr]⟩
        | array xs =>
          refine ⟨fun n => by simp [ResultSet.getNode, nodeCellAt, hc, hr], Or.inr ?_⟩
          exact ⟨"failed to get node: tried to get node in scalar column",
            by simp [ResultSet.getNode, hc, hr]⟩
        | edge e =>
          refine ⟨fun n => by simp [ResultSet.getNode, nodeCellAt, hc, hr], Or.inr ?_⟩
          exact ⟨"failed to get node: tried to get node in scalar column",
            by simp [ResultSet.getNode, hc, hr]⟩
        | path p =>
          refine ⟨fun n => by simp [ResultSet.getNode, nodeCellAt, hc, hr], Or.inr ?_⟩
          exact ⟨"failed to get node: tried to get node in scalar column",
            by simp [ResultSet.getNode, hc, hr]⟩
    | nodes cells =>
      rcases hr : cells[rowIdx]? with _ | cell
      · refine ⟨fun n => by simp [ResultSet.getNode, nodeCellAt, hc, hr], Or.inr ?_⟩
        exact ⟨"failed to get node: row index out of bounds",
          by simp [ResultSet.getNode, hc, hr]⟩
      · refine ⟨fun n => by simp [ResultSet.getNode, nodeCellAt, hc, hr], Or.inl ?_⟩
        exact ⟨cell, by simp [ResultSet.getNode, hc, hr]⟩
    | relations cells =>
      refine ⟨fun n => by simp [ResultSet.getNode, nodeCellAt, hc], Or.inr ?_⟩
      exact ⟨"failed to get node: expected column of nodes",
        by simp [ResultSet.getNode, hc]⟩

/-- Rust `get_edge` returns exactly the edge cells and otherwise a client error. -/
lemma getEdge_spec (rs : ResultSet) (rowIdx colIdx : Nat) :
    (∀ e, rs.getEdge rowIdx colIdx = .ok e ↔ edgeCellAt rs rowIdx colIdx e) ∧
    ((∃ e, rs.getEdge rowIdx colIdx = .ok e) ∨ (rs.getEdge rowIdx colIdx).isClientTypeErr) := by
  rcases hc : rs.columns[colIdx]? with _ | col
  · refine ⟨fun e => by simp [ResultSet.getEdge, edgeCellAt, hc], Or.inr ?_⟩
    exact ⟨"failed to get edge: column index out of bounds",
      by simp [ResultSet.getEdge, hc]⟩
  · cases col with
    | scalars cells =>
      rcases hr : cells[rowIdx]? with _ | cell
      · refine ⟨fun e => by simp [ResultSet.getEdge, edgeCellAt, hc, hr], Or.inr ?_⟩
        exact ⟨"failed to get edge: row index out of bounds",
          by simp [ResultSet.getEdge, hc, hr]⟩
      · cases cell with
        | edge e2 =>
          refine ⟨fun e => by simp [ResultSet.getEdge, edgeCellAt, hc, hr], Or.inl ?_⟩
          exact ⟨e2, by simp [ResultSet.getEdge, hc, hr]⟩
        | nil =>
          refine ⟨fun e => by simp [ResultSet.getEdge, edgeCellAt, hc, hr], Or.inr ?_⟩
          exact ⟨"failed to get edge: tried to get edge in scalar column",
            by simp [ResultSet.getEdge, hc, hr]⟩
        | boolean b =>
          refine ⟨fun e => by simp [ResultSet.getEdge, edgeCellAt, hc, hr], Or.inr ?_⟩
          exact ⟨"failed to get edge: tried to get edge in scalar column",
            by simp [ResultSet.getEdge, hc, hr]⟩
        | integer i =>
          refine ⟨fun e => by simp [ResultSet.getEdge, edgeCellAt, hc, hr], Or.inr ?_⟩
          exact ⟨"failed to get edge: tried to get edge in scalar column",
            by simp [ResultSet.getEdge, hc, hr]⟩
        | double lit =>
          refine ⟨fun e => by simp [ResultSet.getEdge, edgeCellAt, hc, hr], Or.inr ?_⟩
          exact ⟨"failed to get edge: tried to get edge in scalar column",
            by simp [ResultSet.getEdge, hc, hr]⟩
        | string s =>
          refine ⟨fun e => by simp [ResultSet.getEdge, edgeCellAt, hc, hr], Or.inr ?_⟩
          exact ⟨"failed to get edge: tried to get edge in scalar column",
            by simp [ResultSet.getEdge, hc, hr]⟩
        | array xs =>
          refine ⟨fun e => by simp [ResultSet.getEdge, edgeCellAt, hc, hr], Or.inr ?_⟩
          exact ⟨"failed to get edge: tried to get edge in scalar column",
            by simp [ResultSet.getEdge, hc, hr]⟩
        | node n =>
          refine ⟨fun e => by simp [ResultSet.getEdge, edgeCellAt, hc, hr], Or.inr ?_⟩
          exact ⟨"failed to get edge: tried to get edge in scalar column",
            by simp [ResultSet.getEdge, hc, hr]⟩
        | path p =>
          refine ⟨fun e => by simp [ResultSet.getEdge, edgeCellAt, hc, hr], Or.inr ?_⟩
          exact ⟨"failed to get edge: tried to get edge in scalar column",
            by simp [ResultSet.getEdge, hc, hr]⟩
    | relations cells =>
      rcases hr : cells[rowIdx]? with _ | cell
      · refine ⟨fun e => by simp [ResultSet.getEdge, edgeCellAt, hc, hr], Or.inr ?_⟩
        exact ⟨"failed to get edge: row index out of bounds",
          by simp [ResultSet.getEdge, hc, hr]⟩
      · refine ⟨fun e => by simp [ResultSet.getEdge, edgeCellAt, hc, hr], Or.inl ?_⟩
        exact ⟨cell, by simp [ResultSet.getEdge, hc, hr]⟩
    | nodes cells =>
      refine ⟨fun e => by simp [ResultSet.getEdge, edgeCellAt, hc], Or.inr ?_⟩
      exact ⟨"failed to get edge: expected column of relations or scalars",
        by simp [ResultSet.getEdge, hc]⟩

/-- Claim C9: `get_node` succeeds exactly on a nodes-column cell or a
scalars-column `Scalar::Node` cell, `get_edge` exactly on a relations-column
cell or a scalars-column `Scalar::Edge` cell; every other case (wrong column
kind, wrong scalar variant, out-of-bounds index) yields a client type error,
never a panic. -/
theorem get_node_get_edge_accessors (rs : ResultSet) (rowIdx colIdx : Nat) :
    (∀ n, rs.getNode rowIdx colIdx = .ok n ↔ nodeCellAt rs rowIdx colIdx n) ∧
    ((∃ n, rs.getNode rowIdx colIdx = .ok n) ∨ (rs.getNode rowIdx colIdx).isClientTypeErr) ∧
    (∀ e, rs.getEdge rowIdx colIdx = .ok e ↔ edgeCellAt rs rowIdx colIdx e) ∧
    ((∃ e, rs.getEdge rowIdx colIdx = .ok e) ∨ (rs.getEdge rowIdx colIdx).isClientTypeErr) :=
  ⟨(getNode_spec rs rowIdx colIdx).1, (getNode_spec rs rowIdx colIdx).2,
    (getEdge_spec rs rowIdx colIdx).1, (getEdge_spec rs rowIdx colIdx).2⟩

/-- Witness for C9: reads back the node stored in a one-cell nodes column. -/
theorem get_node_get_edge_accessors_witness :
    ResultSet.getNode ⟨[.nodes [defaultNode]], []⟩ 0 0 = .ok defaultNode :=
  ((get_node_get_edge_accessors ⟨[.nodes [defaultNode]], []⟩ 0 0).1 defaultNode).mpr
    (Or.inl ⟨[defaultNode], rfl, rfl⟩)

/-! ## C7: the equal-length invariant of decoded result sets -/

/-- The post-loop check guarantees all columns share the length of the first
column. -/
lemma allSameLen_spec (cols : List Column) (stats : Statistics)
    (h : allSameLen cols = true) :
    ∀ c ∈ cols, c.len = (⟨cols, stats⟩ : ResultSet).numRows := by
  cases cols with
  | nil => simp
  | cons f rest =>
    intro c hc
    simp only [allSameLen, List.all_eq_true] at h
    have := h c hc
    simpa [ResultSet.numRows] using this

/-- A decoded scalar column has one cell per table row. -/
lemma decodeScalarColumn_ok_length (g : GraphState) (i : Nat) :
    ∀ (table : List (List Value)) (cells : List Scalar),
    decodeScalarColumn g i table = .ok cells → cells.length = table.length := by
  intro table
  induction table with
  | nil =>
    intro cells h
    simp only [decodeScalarColumn] at h
    cases h
    rfl
  | cons row rest ih =>
    intro cells h
    simp only [decodeScalarColumn] at h
    rcases hr : row.get? i with _ | cell <;> simp only [hr] at h
    · exact absurd h (by simp)
    · rcases hs : decodeScalar g cell with s | e | m <;> simp only [hs] at h
      · rcases hrest : decodeScalarColumn g i rest with xs | e | m <;> simp only [hrest] at h <;>
          simp [DRes.bind] at h
        rw [← h]
        simp [ih xs hrest]
      · exact absurd h (by simp)
      · exact absurd h (by simp)

/-- A decoded node column has one cell per table row. -/
lemma decodeNodeColumn_ok_length (g : GraphState) (i : Nat) :
    ∀ (table : List (List Value)) (cells : List Node),
    decodeNodeColumn g i table = .ok cells → cells.length = table.length := by
  intro table
  induction table with
  | nil =>
    intro cells h
    simp only [decodeNodeColumn] at h
    cases h
    rfl
  | cons row rest ih =>
    intro cells h
    simp only [decodeNodeColumn] at h
    rcases hr : row.get? i with _ | cell <;> simp only [hr] at h
    · exact absurd h (by simp)
    · rcases hs : decodeNode g cell with s | e | m <;> simp only [hs] at h
      · rcases hrest : decodeNodeColumn g i rest with xs | e | m <;> simp only [hrest] at h <;>
          simp [DRes.bind] at h
        rw [← h]
        simp [ih xs hrest]
      · exact absurd h (by simp)
      · exact absurd h (by simp)

/-- A decoded relation column has one cell per table row. -/
lemma decodeEdgeColumn_ok_length (g : GraphState) (i : Nat) :
    ∀ (table : List (List Value)) (cells : List Edge),
    decodeEdgeColumn g i table = .ok cells → cells.length = table.length := by
  intro table
  induction table with
  | nil =>
    intro cells h
    simp only [decodeEdgeColumn] at h
    cases h
    rfl
  | cons row rest ih =>
    intro cells h
    simp only [decodeEdgeColumn] at h
    rcases hr : row.get? i with _ | cell <;> simp only [hr] at h
    · exact absurd h (by simp)
    · rcases hs : decodeEdge g cell with s | e | m <;> simp only [hs] at h
      · rcases hrest : decodeEdgeColumn g i rest with xs | e | m <;> simp only [hrest] at h <;>
          simp [DRes.bind] at h
        rw [← h]
        simp [ih xs hrest]
      · exact absurd h (by simp)
      · exact absurd h (by simp)

/-- Every successfully built column has one cell per table row. -/
lemma buildColumn_ok_len (g : GraphState) (table : List (List Value)) (hc : Value)
    (i : Nat) (c : Column) (h : buildColumn g table hc i = .ok c) : c.len = table.length := by
  cases hc with
  | bulk cellParts =>
    cases cellParts with
    | nil => exact absurd h (by simp [buildColumn])
    | cons ctv rest =>
      cases ctv with
      | int ct =>
        have h2 : (if ct = 0 then
              (DRes.fail (RedisGraphError.serverTypeError "column type is unknown") : DRes Column)
            else if ct = 1 then
              (decodeScalarColumn g i table).bind fun cells => DRes.ok (Column.scalars cells)
            else if ct = 2 then
              (decodeNodeColumn g i table).bind fun cells => DRes.ok (Column.nodes cells)
            else if ct = 3 then
              (decodeEdgeColumn g i table).bind fun cells => DRes.ok (Column.relations cells)
            else DRes.fail
              (RedisGraphError.serverTypeError "expected integer between 0 and 3 as column type"))
            = DRes.ok c := h
        by_cases c0 : ct = 0
        · rw [if_pos c0] at h2
          exact absurd h2 (by simp)
        rw [if_neg c0] at h2
        by_cases c1 : ct = 1
        · rw [if_pos c1] at h2
          rcases hx : decodeScalarColumn g i table with cells | e | m <;> rw [hx] at h2
          · simp only [DRes.bind] at h2
            cases h2
            simpa [Column.len] using decodeScalarColumn_ok_length g i table cells hx
          · exact absurd h2 (by simp [DRes.bind])
          · exact absurd h2 (by simp [DRes.bind])
        rw [if_neg c1] at h2
        by_cases c2 : ct = 2
        · rw [if_pos c2] at h2
          rcases hx : decodeNodeColumn g i table with cells | e | m <;> rw [hx] at h2
          · simp only [DRes.bind] at h2
            cases h2
            simpa [Column.len] using decodeNodeColumn_ok_length g i table cells hx
          · exact absurd h2 (by simp [DRes.bind])
          · exact absurd h2 (by simp [DRes.bind])
        rw [if_neg c2] at h2
        by_cases c3 : ct = 3
        · rw [if_pos c3] at h2
          rcases hx : decodeEdgeColumn g i table with cells | e | m <;> rw [hx] at h2
          · simp only [DRes.bind] at h2
            cases h2
            simpa [Column.len] using decodeEdgeColumn_ok_length g i table cells hx
          · exact absurd h2 (by simp [DRes.bind])
          · exact absurd h2 (by simp [DRes.bind])
        rw [if_neg c3] at h2
        exact absurd h2 (by simp)
      | nil => exact absurd h (by simp [buildColumn])
      | data bs => exact absurd h (by simp [buildColumn])
      | bulk vs => exact absurd h (by simp [buildColumn])
  | nil => exact absurd h (by simp [buildColumn])
  | int j => exact absurd h (by simp [buildColumn])
  | data bs => exact absurd h (by simp [buildColumn])


/-- All columns built by the header loop have one cell per table row. -/
lemma buildColumns_ok_len (g : GraphState) (table : List (List Value)) :
    ∀ (hcs : List Value) (i : Nat) (cols : List Column),
    buildColumns g table hcs i = .ok cols → ∀ c ∈ cols, c.len = table.length := by
  intro hcs
  induction hcs with
  | nil =>
    intro i cols h c hc
    simp only [buildColumns] at h
    cases h
    simp at hc
  | cons hc0 rest ih =>
    intro i cols h c hcmem
    simp only [buildColumns] at h
    rcases hb : buildColumn g table hc0 i with c0 | e | m <;> simp only [hb] at h
    · rcases hr : buildColumns g table rest (i + 1) with cs | e | m <;> simp only [hr] at h <;>
        simp [DRes.bind] at h
      rw [← h] at hcmem
      rcases List.mem_cons.mp hcmem with rfl | hmem
      · exact buildColumn_ok_len g table hc0 i c hb
      · exact ih (i + 1) cs hr c hmem
    · exact absurd h (by simp)
    · exact absurd h (by simp)

/-- The row conversion preserves the wire row count. -/
lemma rowsToTable_ok_length :
    ∀ (rows : List Value) (t : List (List Value)),
    rowsToTable rows = .ok t → t.length = rows.length := by
  intro rows
  induction rows with
  | nil =>
    intro t h
    simp only [rowsToTable] at h
    cases h
    rfl
  | cons row rest ih =>
    intro t h
    simp only [rowsToTable] at h
    cases row with
    | bulk r =>
      rcases hr : rowsToTable rest with t2 | e | m <;> simp only [hr] at h <;>
        simp [DRes.bind] at h
      rw [← h]
      simp [ih t2 hr]
    | nil => exact absurd h (by simp)
    | int i => exact absurd h (by simp)
    | data bs => exact absurd h (by simp)

/-- Claim C7: every successfully decoded `ResultSet` has all columns of the
same length, with `num_rows()` equal to that shared length; a statistics-only
1-element envelope decodes with `num_rows() = 0`. -/
theorem result_set_rows_invariant (g : GraphState) (v : Value) (rs : ResultSet)
    (h : decodeResultSet g v = .ok rs) :
    (∀ c ∈ rs.columns, c.len = rs.numRows) ∧
    (∀ s, v = .bulk [s] → rs.numRows = 0) ∧
    (∀ hdr rowsList stats2, v = .bulk [hdr, .bulk rowsList, stats2] →
      ∀ c ∈ rs.columns, c.len = rowsList.length) := by
  cases v with
  | nil => exact absurd h (by simp [decodeResultSet])
  | int i => exact absurd h (by simp [decodeResultSet])
  | data bs => exact absurd h (by simp [decodeResultSet])
  | bulk values =>
    rcases values with _ | ⟨a, _ | ⟨b, _ | ⟨c, _ | ⟨d, rest⟩⟩⟩⟩
    · exact absurd h (by simp [decodeResultSet])
    · -- statistics-only envelope
      have h2 : (match parseStatistics a with
          | DRes.ok stats => DRes.ok (⟨[], stats⟩ : ResultSet)
          | DRes.fail e => DRes.fail e
          | DRes.panicked m => DRes.panicked m) = DRes.ok rs := h
      rcases hs : parseStatistics a with stats | e | m <;> rw [hs] at h2
      · cases h2
        exact ⟨by simp, fun s _ => rfl, fun hdr rowsList stats2 heq => absurd heq (by simp)⟩
      · exact absurd h2 (by simp)
      · exact absurd h2 (by simp)
    · exact absurd h (by simp [decodeResultSet])
    · -- 3-element envelope
      cases a with
      | bulk headerCells =>
        have h2 : (match toResultTable b with
            | DRes.ok resultTable =>
              match buildColumns g resultTable headerCells 0 with
              | DRes.ok columns =>
                if allSameLen columns then
                  match parseStatistics c with
                  | DRes.ok stats => DRes.ok (⟨columns, stats⟩ : ResultSet)
                  | DRes.fail e => DRes.fail e
                  | DRes.panicked m => DRes.panicked m
                else .fail (.serverTypeError "result columns have unequal lengths")
              | DRes.fail e => DRes.fail e
              | DRes.panicked m => DRes.panicked m
            | DRes.fail e => DRes.fail e
            | DRes.panicked m => DRes.panicked m) = DRes.ok rs := h
        rcases htr : toResultTable b with t | e | m <;> simp only [htr] at h2
        · rcases hbc : buildColumns g t headerCells 0 with cols | e2 | m2 <;>
            simp only [hbc] at h2
          · by_cases hall : allSameLen cols = true
            · rw [if_pos hall] at h2
              rcases hps : parseStatistics c with stats | e3 | m3 <;>
                simp only [hps] at h2
              · cases h2
                refine ⟨allSameLen_spec cols stats hall, fun s heq => absurd heq (by simp),
                  fun hdr rowsList stats2 heq => ?_⟩
                obtain ⟨h1, hb, h3⟩ : Value.bulk headerCells = hdr ∧ b = .bulk rowsList ∧
                    c = stats2 := by simpa using heq
                subst hb
                have ht : t.length = rowsList.length :=
                  rowsToTable_ok_length rowsList t (by simpa [toResultTable] using htr)
                intro c2 hc2
                rw [buildColumns_ok_len g t headerCells 0 cols hbc c2 hc2, ht]
              · exact absurd h2 (by simp)
              · exact absurd h2 (by simp)
            · rw [if_neg hall] at h2
              exact absurd h2 (by simp)
          · exact absurd h2 (by simp)
          · exact absurd h2 (by simp)
        · exact absurd h2 (by simp)
        · exact absurd h2 (by simp)
      | nil => exact absurd h (by simp [decodeResultSet])
      | int i => exact absurd h (by simp [decodeResultSet])
      | data bs => exact absurd h (by simp [decodeResultSet])
    · exact absurd h (by simp [decodeResultSet])

/-- Witness for C7 on the statistics-only envelope `[[]]`. -/
theorem result_set_rows_invariant_witness : (⟨[], []⟩ : ResultSet).numRows = 0 :=
  (result_set_rows_invariant emptyGraph (.bulk [.bulk []]) ⟨[], []⟩ rfl).2.1 (.bulk []) rfl

/-! ## C4: double-tagged scalar decoding errors -/

/-- Claim C4 (amended): a double-tagged scalar whose payload is a byte string
that is valid UTF-8 but not a float literal fails with a `ServerTypeError`,
as does a payload that is not a byte string at all; a payload that is not
valid UTF-8 instead fails with the distinct `InvalidUtf8` error kind. -/
theorem scalar_double_decode (g : GraphState) (bs : List Nat) (i : Int) :
    (validUtf8 bs = false → decodeScalar g (.bulk [.int 5, .data bs]) = .fail .invalidUtf8) ∧
    (validUtf8 bs = true → isF64Literal bs = false →
      decodeScalar g (.bulk [.int 5, .data bs]) =
        .fail (.serverTypeError "expected string representation of double as scalar value (scalar type is double)")) ∧
    (decodeScalar g (.bulk [.int 5, .int i]) =
      .fail (.serverTypeError "expected string representing a double as scalar value (scalar type is double)")) := by
  refine ⟨fun h1 => ?_, fun h1 h2 => ?_, ?_⟩
  · simp [decodeScalar, sizeVal, sizeValList, decodeScalarF, decodeScalarTaggedF, h1]
  · simp [decodeScalar, sizeVal, sizeValList, decodeScalarF, decodeScalarTaggedF, h1, h2]
  · simp [decodeScalar, sizeVal, sizeValList, decodeScalarF, decodeScalarTaggedF]

/-- Witness for C4 (amended) at the non-float ASCII payload "abc". -/
theorem scalar_double_decode_witness :
    decodeScalar emptyGraph (.bulk [.int 5, .data [97, 98, 99]]) =
      .fail (.serverTypeError "expected string representation of double as scalar value (scalar type is double)") :=
  (scalar_double_decode emptyGraph [97, 98, 99] 0).2.1 (by decide) (by decide)

/-- Counterexample for C4 as stated: a non-UTF-8 double payload fails with
`InvalidUtf8`, which is not a `ServerTypeError`. -/
theorem scalar_double_nonUtf8_not_serverTypeError :
    decodeScalar emptyGraph (.bulk [.int 5, .data [255]]) = .fail .invalidUtf8 ∧
    ¬ (DRes.fail (α := Scalar) RedisGraphError.invalidUtf8).isServerTypeErr := by
  constructor
  · rfl
  · rintro ⟨msg, hmsg⟩
    simp at hmsg

/-! ## C3: a row with missing cells makes decoding panic, not error

Every decoded column has exactly one cell per row by construction, so the
"result columns have unequal lengths" check in the source can never fire; a row
shorter than the header instead hits the `row[i]` indexing panic. -/

/-- Claim C3 (code bug): the envelope `vShortRow` (two declared columns, one
row with zero cells) makes result-set decoding panic with an index-out-of-
bounds instead of returning a server type error. -/
theorem decode_short_row_panics :
    decodeResultSet emptyGraph vShortRow = .panicked "index out of bounds" := by
  rfl

/-! ## C6: label-id resolution in the node decoder -/

/-- In-range label ids resolve positionally against the cache. -/
lemma resolveLabelIds_all_ok (labels : List RedisString) (ids : List Int)
    (h : ∀ i ∈ ids, intToUsize i < labels.length) :
    resolveLabelIds labels (ids.map Value.int) =
      .ok (ids.map fun i => labels[intToUsize i]?.getD []) := by
  induction ids with
  | nil => simp [resolveLabelIds]
  | cons a rest ih =>
    have ha : intToUsize a < labels.length := h a (by simp)
    have hrest := ih fun i hi => h i (by simp [hi])
    have hg : ∃ x, labels[intToUsize a]? = some x := by
      rcases hx : labels[intToUsize a]? with _ | x
      · exact absurd (List.getElem?_eq_none_iff.mp hx) (by omega)
      · exact ⟨x, rfl⟩
    rcases hg with ⟨x, hx⟩
    simp [resolveLabelIds, hx, hrest, DRes.bind]

/-- A label id at or past the cache length makes resolution fail with the
distinguished `LabelNotFound` error. -/
lemma resolveLabelIds_miss (labels : List RedisString) (ids : List Int)
    (h : ∃ i ∈ ids, labels.length ≤ intToUsize i) :
    resolveLabelIds labels (ids.map Value.int) = .fail .labelNotFound := by
  induction ids with
  | nil => simp at h
  | cons a rest ih =>
    by_cases ha : labels.length ≤ intToUsize a
    · have hn : labels[intToUsize a]? = none := List.getElem?_eq_none ha
      simp [resolveLabelIds, hn]
    · rcases h with ⟨i, hi, hge⟩
      rcases List.mem_cons.mp hi with rfl | hmem
      · exact absurd hge ha
      · have hrest := ih ⟨i, hmem, hge⟩
        have hg : ∃ x, labels[intToUsize a]? = some x := by
          rcases hx : labels[intToUsize a]? with _ | x
          · exact absurd (List.getElem?_eq_none_iff.mp hx) ha
          · exact ⟨x, rfl⟩
        rcases hg with ⟨x, hx⟩
        simp [resolveLabelIds, hx, hrest, DRes.bind]

/-- A negative `i64` label id wraps to at least `2^63` under `as usize`. -/
lemma intToUsize_of_neg (i : Int) (h1 : i < 0) (h2 : -(2 ^ 63 : Int) ≤ i) :
    2 ^ 63 ≤ intToUsize i := by
  unfold intToUsize
  omega

/-- Claim C6: node decoding resolves each label id by position in the label
cache, producing the cached names in wire order when all ids are in range,
and failing with the distinguished `LabelNotFound` error when some id is at
or past the cache length — including any negative `i64` id, whose `as usize`
cast wraps past every realizable cache length (Rust caps `Vec` lengths at
`isize::MAX < 2^63`). -/
theorem node_label_resolution (g : GraphState) (idv propsV : Value) (ids : List Int)
    (props : List (RedisString × Scalar)) (n : Nat)
    (hprops : parsePropertiesF g n propsV = .ok props) :
    ((∀ i ∈ ids, intToUsize i < g.labels.length) →
      decodeNodeF g (n + 1) (.bulk [idv, .bulk (ids.map Value.int), propsV]) =
        .ok (.mk (ids.map fun i => g.labels[intToUsize i]?.getD []) props)) ∧
    ((∃ i ∈ ids, g.labels.length ≤ intToUsize i) →
      decodeNodeF g (n + 1) (.bulk [idv, .bulk (ids.map Value.int), propsV]) =
        .fail .labelNotFound) ∧
    ((∃ i ∈ ids, i < 0 ∧ -(2 ^ 63 : Int) ≤ i) → g.labels.length ≤ 2 ^ 63 →
      decodeNodeF g (n + 1) (.bulk [idv, .bulk (ids.map Value.int), propsV]) =
        .fail .labelNotFound) := by
  refine ⟨fun hin => ?_, fun hmiss => ?_, fun hneg hlen => ?_⟩
  · simp only [decodeNodeF, resolveLabelIds_all_ok g.labels ids hin, hprops, DRes.bind]
  · simp only [decodeNodeF, resolveLabelIds_miss g.labels ids hmiss, DRes.bind]
  · rcases hneg with ⟨i, hi, hlt, hge⟩
    have hw : 2 ^ 63 ≤ intToUsize i := intToUsize_of_neg i hlt hge
    have hmiss : ∃ j ∈ ids, g.labels.length ≤ intToUsize j := ⟨i, hi, by omega⟩
    simp only [decodeNodeF, resolveLabelIds_miss g.labels ids hmiss, DRes.bind]

/-- Witness for C6: label id 0 resolves against a one-entry cache. -/
theorem node_label_resolution_witness :
    decodeNodeF oneLabelGraph 2 (.bulk [.nil, .bulk [.int 0], .bulk []]) =
      .ok (.mk [[65]] []) :=
  (node_label_resolution oneLabelGraph .nil (.bulk []) [0] [] 1 rfl).1 (by decide)

/-! ## C1: the cache-miss retry protocol is unbounded

`Graph::get_result_set` recurses on every identifier-not-found failure after
refreshing the matching cache, with no retry counter: if the id is still
unresolvable after refresh the recursion repeats forever instead of returning
the error after one refresh. The three miss kinds take three distinct match
arms with three distinct refresh paths, so each kind is settled separately. -/

/-- Decoding `vNodeEnvelope` against empty caches misses label id 0. -/
lemma decode_vNode_label_miss :
    decodeResultSet emptyGraph vNodeEnvelope = .fail .labelNotFound := by
  rfl

/-- Decoding `vEdgeEnvelope` against empty caches misses relationship-type
id 0. -/
lemma decode_vEdge_reltype_miss :
    decodeResultSet emptyGraph vEdgeEnvelope = .fail .relationshipTypeNotFound := by
  rfl

/-- Decoding `vPropEnvelope` against empty caches misses property key id 0. -/
lemma decode_vProp_propkey_miss :
    decodeResultSet emptyGraph vPropEnvelope = .fail .propertyKeyNotFound := by
  rfl

/-- Refreshing the label cache from `srv0` leaves the empty session state
unchanged. -/
lemma update_srv0_fixpoint : updateLabels srv0 emptyGraph = .ok emptyGraph := by
  rfl

/-- Refreshing the relationship-type cache from `srv0` leaves the empty
session state unchanged. -/
lemma update_reltypes_srv0_fixpoint :
    updateRelationshipTypes srv0 emptyGraph = .ok emptyGraph := by
  rfl

/-- Refreshing the property-key cache from `srv0` leaves the empty session
state unchanged. -/
lemma update_propkeys_srv0_fixpoint :
    updatePropertyKeys srv0 emptyGraph = .ok emptyGraph := by
  rfl

/-- One retry iteration of the label arm: a label miss followed by a
successful label refresh re-decodes the same original value in the refreshed
state. -/
lemma getResultSetFuel_step_label (srv : Server) (g g2 : GraphState) (v : Value) (n : Nat)
    (h1 : decodeResultSet g v = .fail .labelNotFound)
    (h2 : updateLabels srv g = .ok g2) :
    getResultSetFuel srv (n + 1) g v = getResultSetFuel srv n g2 v := by
  simp only [getResultSetFuel, h1, h2]

/-- One retry iteration of the relationship-type arm. -/
lemma getResultSetFuel_step_reltype (srv : Server) (g g2 : GraphState) (v : Value) (n : Nat)
    (h1 : decodeResultSet g v = .fail .relationshipTypeNotFound)
    (h2 : updateRelationshipTypes srv g = .ok g2) :
    getResultSetFuel srv (n + 1) g v = getResultSetFuel srv n g2 v := by
  simp only [getResultSetFuel, h1, h2]

/-- One retry iteration of the property-key arm. -/
lemma getResultSetFuel_step_propkey (srv : Server) (g g2 : GraphState) (v : Value) (n : Nat)
    (h1 : decodeResultSet g v = .fail .propertyKeyNotFound)
    (h2 : updatePropertyKeys srv g = .ok g2) :
    getResultSetFuel srv (n + 1) g v = getResultSetFuel srv n g2 v := by
  simp only [getResultSetFuel, h1, h2]

/-- When the label refresh leaves the state fixed and the label miss
persists, the retry recursion never produces a result at any fuel. -/
lemma getResultSetFuel_diverges_label (srv : Server) (g : GraphState) (v : Value)
    (h1 : decodeResultSet g v = .fail .labelNotFound)
    (h2 : updateLabels srv g = .ok g) :
    ∀ n, getResultSetFuel srv n g v = none := by
  intro n
  induction n with
  | zero => rfl
  | succ n ih =>
    rw [getResultSetFuel_step_label srv g g v n h1 h2]
    exact ih

/-- When the relationship-type refresh leaves the state fixed and the miss
persists, the retry recursion never produces a result at any fuel. -/
lemma getResultSetFuel_diverges_reltype (srv : Server) (g : GraphState) (v : Value)
    (h1 : decodeResultSet g v = .fail .relationshipTypeNotFound)
    (h2 : updateRelationshipTypes srv g = .ok g) :
    ∀ n, getResultSetFuel srv n g v = none := by
  intro n
  induction n with
  | zero => rfl
  | succ n ih =>
    rw [getResultSetFuel_step_reltype srv g g v n h1 h2]
    exact ih

/-- When the property-key refresh leaves the state fixed and the miss
persists, the retry recursion never produces a result at any fuel. -/
lemma getResultSetFuel_diverges_propkey (srv : Server) (g : GraphState) (v : Value)
    (h1 : decodeResultSet g v = .fail .propertyKeyNotFound)
    (h2 : updatePropertyKeys srv g = .ok g) :
    ∀ n, getResultSetFuel srv n g v = none := by
  intro n
  induction n with
  | zero => rfl
  | succ n ih =>
    rw [getResultSetFuel_step_propkey srv g g v n h1 h2]
    exact ih

/-- Counterexample for C1 as stated: with empty caches, a label-miss reply
and a server whose refresh yields an empty mapping, `get_result_set` is still
running after 2 and after 3 decode attempts — the claimed
"one refresh, then return the not-found error" behavior would have returned
`LabelNotFound` by then. -/
theorem get_result_set_more_than_one_refresh :
    getResultSetFuel srv0 2 emptyGraph vNodeEnvelope = none ∧
    getResultSetFuel srv0 3 emptyGraph vNodeEnvelope = none :=
  ⟨getResultSetFuel_diverges_label srv0 emptyGraph vNodeEnvelope decode_vNode_label_miss
      update_srv0_fixpoint 2,
    getResultSetFuel_diverges_label srv0 emptyGraph vNodeEnvelope decode_vNode_label_miss
      update_srv0_fixpoint 3⟩

/-- Claim C1 (amended): on an identifier-not-found failure of any of the
three kinds, `get_result_set` refreshes that kind's cache and re-decodes the
same original reply value, and repeats this without bound: if the refreshed
state decodes successfully that result is returned, but when the refresh
leaves the cache unchanged and the miss persists the call never returns at
any recursion depth (the not-found error is not surfaced after one refresh).
The three conjunct groups cover the label, relationship-type and
property-key match arms in turn. -/
theorem get_result_set_retry_protocol (srv : Server) (g g2 : GraphState) (v : Value)
    (rs : ResultSet) (n : Nat) :
    ((decodeResultSet g v = .fail .labelNotFound → updateLabels srv g = .ok g2 →
        getResultSetFuel srv (n + 1) g v = getResultSetFuel srv n g2 v) ∧
      (decodeResultSet g v = .fail .labelNotFound → updateLabels srv g = .ok g2 →
        decodeResultSet g2 v = .ok rs →
        getResultSetFuel srv (n + 2) g v = some (.ok rs, g2)) ∧
      (decodeResultSet g v = .fail .labelNotFound → updateLabels srv g = .ok g →
        getResultSetFuel srv n g v = none)) ∧
    ((decodeResultSet g v = .fail .relationshipTypeNotFound →
        updateRelationshipTypes srv g = .ok g2 →
        getResultSetFuel srv (n + 1) g v = getResultSetFuel srv n g2 v) ∧
      (decodeResultSet g v = .fail .relationshipTypeNotFound →
        updateRelationshipTypes srv g = .ok g2 → decodeResultSet g2 v = .ok rs →
        getResultSetFuel srv (n + 2) g v = some (.ok rs, g2)) ∧
      (decodeResultSet g v = .fail .relationshipTypeNotFound →
        updateRelationshipTypes srv g = .ok g →
        getResultSetFuel srv n g v = none)) ∧
    ((decodeResultSet g v = .fail .propertyKeyNotFound →
        updatePropertyKeys srv g = .ok g2 →
        getResultSetFuel srv (n + 1) g v = getResultSetFuel srv n g2 v) ∧
      (decodeResultSet g v = .fail .propertyKeyNotFound →
        updatePropertyKeys srv g = .ok g2 → decodeResultSet g2 v = .ok rs →
        getResultSetFuel srv (n + 2) g v = some (.ok rs, g2)) ∧
      (decodeResultSet g v = .fail .propertyKeyNotFound →
        updatePropertyKeys srv g = .ok g →
        getResultSetFuel srv n g v = none)) := by
  refine ⟨⟨fun h1 h2 => getResultSetFuel_step_label srv g g2 v n h1 h2, fun h1 h2 h3 => ?_,
      fun h1 h2 => getResultSetFuel_diverges_label srv g v h1 h2 n⟩,
    ⟨fun h1 h2 => getResultSetFuel_step_reltype srv g g2 v n h1 h2, fun h1 h2 h3 => ?_,
      fun h1 h2 => getResultSetFuel_diverges_reltype srv g v h1 h2 n⟩,
    ⟨fun h1 h2 => getResultSetFuel_step_propkey srv g g2 v n h1 h2, fun h1 h2 h3 => ?_,
      fun h1 h2 => getResultSetFuel_diverges_propkey srv g v h1 h2 n⟩⟩
  · show getResultSetFuel srv ((n + 1) + 1) g v = some (.ok rs, g2)
    rw [getResultSetFuel_step_label srv g g2 v (n + 1) h1 h2]
    simp only [getResultSetFuel, h3]
  · show getResultSetFuel srv ((n + 1) + 1) g v = some (.ok rs, g2)
    rw [getResultSetFuel_step_reltype srv g g2 v (n + 1) h1 h2]
    simp only [getResultSetFuel, h3]
  · show getResultSetFuel srv ((n + 1) + 1) g v = some (.ok rs, g2)
    rw [getResultSetFuel_step_propkey srv g g2 v (n + 1) h1 h2]
    simp only [getResultSetFuel, h3]

/-- Witness for C1 (amended): a persistent-miss input of each of the three
kinds loops at fuel 5. -/
theorem get_result_set_retry_protocol_witness :
    getResultSetFuel srv0 5 emptyGraph vNodeEnvelope = none ∧
    getResultSetFuel srv0 5 emptyGraph vEdgeEnvelope = none ∧
    getResultSetFuel srv0 5 emptyGraph vPropEnvelope = none :=
  ⟨(get_result_set_retry_protocol srv0 emptyGraph emptyGraph vNodeEnvelope ⟨[], []⟩ 5).1.2.2
      decode_vNode_label_miss update_srv0_fixpoint,
    (get_result_set_retry_protocol srv0 emptyGraph emptyGraph vEdgeEnvelope ⟨[], []⟩ 5).2.1.2.2
      decode_vEdge_reltype_miss update_reltypes_srv0_fixpoint,
    (get_result_set_retry_protocol srv0 emptyGraph emptyGraph vPropEnvelope ⟨[], []⟩ 5).2.2.2.2
      decode_vProp_propkey_miss update_propkeys_srv0_fixpoint⟩

end RedisGraph
